import Mathlib

/-!
Verification of the seo-checker crawler/checker against its specification.

The development shallowly embeds the TypeScript sources:
  * `src/check.ts` — the checker CLI: `checkPath`, `checkAllPages`, report
    aggregation (unique/global error lists and total counts);
  * `src/sitemap.ts` / `src/unnamed/part_000` (`generateSitemap`) — the
    sitemap crawler: `checkPath`, `checkAllPages`, `round`, `getPriority`,
    `escapeXml` and the `<url>` entry rendering;
  * `src/check/heading-hierarchy.ts` — the heading-hierarchy check and the
    accessible-naming (`notAriaHidden` / `hasAccessibilityContent`) check;
  * `src/check/seo.ts` — the performance-classification check.

External collaborators (the WHATWG URL parser, the HTML parser, the HTTP
fetch primitive) are modelled as parameters/oracles: a `UrlFns` record of
URL-resolution functions, a parsed `Elem` tree carried by the fetch
response, and a `fetchO : path → Response` oracle.  JavaScript string
primitives (`startsWith`, `endsWith`, `includes`, `trim`, `Set` dedup,
`Math.round`, `Math.max`) are embedded as executable Lean functions below.
Numbers that the source manipulates as IEEE doubles (`0.8 ** (depth-1)`,
loading times) are modelled as exact rationals; where a claim rests on a
concrete numeric value the rational and double computations agree.
-/

/-! ### JavaScript primitive models -/

/-- JS `String.prototype.trim` whitespace test (restricted to the
whitespace characters that occur in this development). -/
def isWsChar (c : Char) : Bool := c = ' ' || c = '\t' || c = '\n' || c = '\r'

/-- JS `String.prototype.trim`. -/
def jsTrim (s : String) : String :=
  ⟨((s.data.dropWhile isWsChar).reverse.dropWhile isWsChar).reverse⟩

/-- `matchesAt pat l` : `pat` occurs at the head of `l`. -/
def matchesAt : List Char → List Char → Bool
  | [], _ => true
  | _ :: _, [] => false
  | a :: as, b :: bs => a = b && matchesAt as bs

/-- JS `String.prototype.startsWith`. -/
def jsStartsWith (s pat : String) : Bool := matchesAt pat.data s.data

/-- JS `String.prototype.endsWith`. -/
def jsEndsWith (s pat : String) : Bool := matchesAt pat.data.reverse s.data.reverse

/-- `hasSubList pat l` : `pat` occurs contiguously somewhere in `l`. -/
def hasSubList (pat : List Char) : List Char → Bool
  | [] => matchesAt pat []
  | c :: rest => matchesAt pat (c :: rest) || hasSubList pat rest

/-- JS `String.prototype.includes`. -/
def jsIncludes (s pat : String) : Bool := hasSubList pat.data s.data

/-- JS `headerValue?.includes(pat)` where the header read may be `null`:
`null?.includes(...)` is `undefined`, which is falsy. -/
def jsIncludesOpt : Option String → String → Bool
  | none, _ => false
  | some s, pat => jsIncludes s pat

/-- One pass of JS `new Set(array)`: iterate the array, keeping each element
whose value is not already in the set (first occurrence wins). -/
def jsSetDedupAux {α : Type} [DecidableEq α] (seen : List α) : List α → List α
  | [] => []
  | x :: xs => if x ∈ seen then jsSetDedupAux seen xs else x :: jsSetDedupAux (x :: seen) xs

/-- JS `Array.from(new Set(l))`: insertion-ordered value dedup.  JS `Set`
compares by SameValueZero: primitive strings by value, objects by reference —
the element type's equality below is chosen accordingly at each use site. -/
def jsSetDedup {α : Type} [DecidableEq α] (l : List α) : List α := jsSetDedupAux [] l

/-- JS `Math.round` (round half toward +∞). -/
def jsRoundQ (q : ℚ) : ℤ := ⌊q + 1/2⌋

/-- `round(nb, precision)` from `src/unnamed/part_000`:
`Math.round(nb * 10 ** precision) / 10 ** precision`. -/
def roundTo (nb : ℚ) (precision : ℕ) : ℚ := (jsRoundQ (nb * 10 ^ precision) : ℚ) / 10 ^ precision

/-- JS `Number.prototype.toFixed(2)` on the two-decimal nonnegative values
produced by `roundTo _ 2` (exact in ℚ, so no further rounding happens). -/
def toFixed2 (q : ℚ) : String :=
  let k : ℕ := (⌊q * 100⌋).toNat
  toString (k / 100) ++ "." ++ (if k % 100 < 10 then "0" else "") ++ toString (k % 100)

/-- JS string truthiness: non-empty. -/
def truthyStr (s : String) : Bool := !(s == "")

/-- JS truthiness of `getAttribute(...)` (null or a string). -/
def truthyOpt : Option String → Bool
  | none => false
  | some s => truthyStr s

/-! ### DOM model

The HTML parser is an external collaborator; a parsed document is an
element tree.  Each element carries its tag name, its attribute list
(first occurrence wins on lookup, as `getAttribute` does), its own text
and its child elements.  `querySelectorAll` traversals are document-order
(pre-order) walks of this tree. -/

/-- Attribute list of an element. -/
abbrev Attrs := List (String × String)

/-- A parsed DOM element. -/
inductive Elem where
  | mk : String → Attrs → String → List Elem → Elem

/-- Tag name. -/
def Elem.tag : Elem → String
  | .mk t _ _ _ => t

/-- Attribute list. -/
def Elem.attrs : Elem → Attrs
  | .mk _ a _ _ => a

/-- The element's own (direct) text. -/
def Elem.ownText : Elem → String
  | .mk _ _ x _ => x

/-- Child elements. -/
def Elem.childElems : Elem → List Elem
  | .mk _ _ _ c => c

/-- `getAttribute`: the first attribute with the given name, or null. -/
def lookupAttr : Attrs → String → Option String
  | [], _ => none
  | kv :: rest, name => if kv.1 == name then some kv.2 else lookupAttr rest name

/-- `element.getAttribute(name)`. -/
def getAttr (e : Elem) (name : String) : Option String := lookupAttr e.attrs name

mutual
/-- DOM `textContent`: all text of the subtree, in tree order. -/
def textContent : Elem → String
  | .mk _ _ x cs => x ++ textContentList cs
def textContentList : List Elem → String
  | [] => ""
  | c :: cs => textContent c ++ textContentList cs
end

/-- Double-quote character (written by code point to keep literals simple). -/
def dq : String := String.singleton (Char.ofNat 34)

/-- `getTag` from `src/utils/html.ts`: the serialized opening tag
(`outerHTML` up to and including the first `>`). -/
def getTag (e : Elem) : String :=
  "<" ++ e.tag ++ String.join (e.attrs.map (fun kv => " " ++ kv.1 ++ "=" ++ dq ++ kv.2 ++ dq)) ++ ">"

mutual
/-- Pre-order walk pairing every element with the attribute lists of its
ancestors (nearest first): the view `notAriaHidden`'s parent walk needs. -/
def elemsWithAnc : List Attrs → Elem → List (Elem × List Attrs)
  | anc, .mk tg a tx cs => (Elem.mk tg a tx cs, anc) :: elemsWithAncList (a :: anc) cs
def elemsWithAncList : List Attrs → List Elem → List (Elem × List Attrs)
  | _, [] => []
  | anc, c :: cs => elemsWithAnc anc c ++ elemsWithAncList anc cs
end

/-! ### Accessible-naming check (`src/check/heading-hierarchy.ts`, second
module; the same functions appear inline in `src/seo.ts`) -/

/-- Does this attribute list carry `aria-hidden="true"` or `aria-hidden=""`? -/
def ariaHiddenHit (attrs : Attrs) : Bool :=
  lookupAttr attrs "aria-hidden" == some "true" || lookupAttr attrs "aria-hidden" == some ""

/-- `notAriaHidden` from the source, over the chain of attribute lists from
the element itself up through its ancestors: false as soon as some link of
the chain has `aria-hidden` equal to `"true"` or `""`; otherwise the walk
continues to the parent, and an element with no parent left is visible. -/
def notAriaHidden : List Attrs → Bool
  | [] => true
  | attrs :: parents => if ariaHiddenHit attrs then false else notAriaHidden parents

mutual
/-- `hasAccessibilityContent(element, value)` from the source: if the element
has a truthy `aria-label` or non-blank `textContent`, return `value`; else if
some child's recursive call returns true, return `value`; else false. -/
def hasAccessibilityContent : Elem → Bool → Bool
  | .mk tg a tx cs, value =>
    if truthyOpt (lookupAttr a "aria-label") || truthyStr (jsTrim (textContent (.mk tg a tx cs))) then value
    else if anyChildHasContent cs value then value
    else false
def anyChildHasContent : List Elem → Bool → Bool
  | [], _ => false
  | c :: cs, value => hasAccessibilityContent c value || anyChildHasContent cs value
end

/-- The selector `a:not([aria-label]), [role=button]:not([aria-label]),
button:not([aria-label])`. -/
def selNotLabelled (e : Elem) : Bool :=
  (e.tag == "a" && (getAttr e "aria-label").isNone)
    || (getAttr e "role" == some "button" && (getAttr e "aria-label").isNone)
    || (e.tag == "button" && (getAttr e "aria-label").isNone)

/-- The `notLabelledLink` block of the accessibility check:
`querySelectorAll(...)` filtered by `isHTMLElement` (every element of this
model is one), `notAriaHidden` and `hasAccessibilityContent(e, false)`, then
one appended error string per surviving element. -/
def notLabelledErrors (root : Elem) : List String :=
  ((elemsWithAnc [] root).filter
      (fun p => selNotLabelled p.1 && notAriaHidden (p.1.attrs :: p.2)
        && hasAccessibilityContent p.1 false)).map
    (fun p => "Accessibility: Not labelled link/button: " ++ getTag p.1)

/-! ### Checker data model (`src/check.ts`) -/

/-- `PageType.headings`: level 1–6 heading texts. -/
structure Headings where
  h1 : List String
  h2 : List String
  h3 : List String
  h4 : List String
  h5 : List String
  h6 : List String
deriving DecidableEq

/-- `{ h1: [], h2: [], h3: [], h4: [], h5: [], h6: [] }`. -/
def emptyHeadings : Headings := ⟨[], [], [], [], [], []⟩

/-- `headings[`h${i}`] || []` for a dynamic level index. -/
def hLevel (hs : Headings) : ℕ → List String
  | 1 => hs.h1
  | 2 => hs.h2
  | 3 => hs.h3
  | 4 => hs.h4
  | 5 => hs.h5
  | 6 => hs.h6
  | _ => []

/-- `PageType` of the checker (plus the `performanceScore` field the
performance check sets). -/
structure PageR where
  path : String
  title : String
  headings : Headings
  errors : List String
  warnings : List String
  loadingTime : Option ℚ
  performanceScore : Option String
deriving DecidableEq

/-- `CheckOptions`. -/
structure CheckOptions where
  seo : Bool
  accessibility : Bool
  verbose : Bool
  socialMedia : Bool
deriving DecidableEq

/-- A parsed document: its `title` and root element. -/
structure DocM where
  title : String
  root : Elem

/-- What the URL collaborator exposes of `new URL(link, base)`. -/
structure UrlRepr where
  origin : String
  pathname : String
  toStr : String

/-- The WHATWG URL collaborator: `resolve base link` models
`new URL(link, base)`. -/
structure UrlFns where
  resolve : String → String → UrlRepr

/-- A concrete URL collaborator for closed evaluations: adequate for a base
origin with no trailing slash and root-relative links. -/
def simpleUrls : UrlFns :=
  ⟨fun base link => ⟨base, link, base ++ link⟩⟩

/-- What one `fetch` of a page resolves to: `ok`, `status`, the
`content-type` header (or null), the parsed body and the elapsed
fetch-to-body-read time. -/
structure Response where
  ok : Bool
  status : ℕ
  contentType : Option String
  doc : DocM
  loadingTime : ℚ

/-- The check registry run against a fetched page: the composite of the
dynamically loaded check modules, each `(options, document, page) → page`. -/
abbrev Battery := CheckOptions → DocM → PageR → PageR

/-- Result of one `checkPath` call: the returned candidate paths, the store
after the call, and whether the call reached its `fetch`. -/
structure CPRes where
  links : List String
  store : List (String × PageR)
  fetched : Bool
deriving DecidableEq

/-- `pages[path] || path.startsWith('http') || path.endsWith('sitemap.xml')
|| path.endsWith('robots.txt')` — the checker's skip rule (a stored record
is always truthy). -/
def skipGuardC (pages : List (String × PageR)) (path : String) : Bool :=
  (List.lookup path pages).isSome || jsStartsWith path "http"
    || jsEndsWith path "sitemap.xml" || jsEndsWith path "robots.txt"

/-- `Array.from(document.querySelectorAll('a')).map(e =>
e.getAttribute('href')).filter(notNullish)`. -/
def anchorHrefs (root : Elem) : List String :=
  (((elemsWithAnc [] root).map Prod.fst).filter (fun e => e.tag == "a")).filterMap
    (fun e => getAttr e "href")

/-- The checker's link extraction (`src/check.ts` lines 105–112): resolve
each anchor href against the base, keep same-origin pathnames not already
collected and whose absolute URL is not the `path` of a stored record. -/
def extractLinksC (urls : UrlFns) (baseUrl : String) (doc : DocM)
    (pages : List (String × PageR)) : List String :=
  (anchorHrefs doc.root).foldl
    (fun acc link =>
      let u := urls.resolve baseUrl link
      if u.origin == baseUrl && !(acc.contains u.pathname)
          && !(pages.any (fun kv => kv.2.path == u.toStr))
      then acc ++ [u.pathname] else acc)
    []

/-- `checkPath` of `src/check.ts`.  The fetch's outcome is passed in as
`resp`; `fetched := false` records that the guard returned before the fetch
line was reached.  Note the source order: the content-type test precedes the
`!data.ok` test. -/
def checkV (urls : UrlFns) (battery : Battery) (opts : CheckOptions)
    (baseUrl path : String) (pages : List (String × PageR)) (resp : Response) : CPRes :=
  if skipGuardC pages path then ⟨[], pages, false⟩
  else
    let url := urls.resolve baseUrl path
    if !(jsIncludesOpt resp.contentType "text/html") then ⟨[], pages, true⟩
    else if !resp.ok then
      ⟨[], pages ++ [(path,
        ⟨url.toStr, "", emptyHeadings, ["HTTP error: " ++ toString resp.status], [],
          some resp.loadingTime, none⟩)], true⟩
    else
      let page0 : PageR :=
        ⟨url.toStr, jsTrim resp.doc.title, emptyHeadings, [], [], some resp.loadingTime, none⟩
      let page := battery opts resp.doc page0
      let pages2 := pages ++ [(path, page)]
      ⟨extractLinksC urls baseUrl resp.doc pages2, pages2, true⟩

/-- State of the checker's `checkAllPages` loop. -/
structure CStateC where
  frontier : List String
  store : List (String × PageR)

/-- One iteration of the checker's `checkAllPages` while-loop: splice off a
batch of `max(options.max, 1)` paths, run `checkPath` on each (the
concurrent batch is serialized here — each worker sees the store writes of
the ones folded before it, one legal interleaving of the shared-object
updates), append the returned candidates to the remaining frontier, then
`pagesToCheck = Array.from(new Set(pagesToCheck))` — a value dedup, since
the checker's frontier holds primitive strings. -/
def crawlStepC (urls : UrlFns) (battery : Battery) (opts : CheckOptions)
    (fetchO : String → Response) (baseUrl : String) (maxN : ℕ) (st : CStateC) : CStateC :=
  let k := max maxN 1
  let batch := st.frontier.take k
  let rest := st.frontier.drop k
  let step := batch.foldl
    (fun (acc : List (String × PageR) × List String) p =>
      let r := checkV urls battery opts baseUrl p acc.1 (fetchO p)
      (r.store, acc.2 ++ r.links))
    (st.store, [])
  ⟨jsSetDedup (rest ++ step.2), step.1⟩

/-! ### Checker report aggregation (`src/check.ts` cli action) -/

/-- `Object.values(pages).reduce((total, page) => total.concat(page.errors), [])`. -/
def concatErrors (store : List (String × PageR)) : List String :=
  store.foldl (fun total kv => total ++ kv.2.errors) []

/-- Same reduction over the warnings. -/
def concatWarnings (store : List (String × PageR)) : List String :=
  store.foldl (fun total kv => total ++ kv.2.warnings) []

/-- `uniqueErrors = Array.from(new Set(...concat of all errors...))`. -/
def uniqueErrors (store : List (String × PageR)) : List String :=
  jsSetDedup (concatErrors store)

/-- `uniqueWarnings` likewise. -/
def uniqueWarnings (store : List (String × PageR)) : List String :=
  jsSetDedup (concatWarnings store)

/-- `Object.values(pages).reduce((total, page) => total + page.errors.length, 0)`. -/
def totalErrors (store : List (String × PageR)) : ℕ :=
  store.foldl (fun total kv => total + kv.2.errors.length) 0

/-- Total warning count likewise. -/
def totalWarnings (store : List (String × PageR)) : ℕ :=
  store.foldl (fun total kv => total + kv.2.warnings.length) 0

/-! ### Heading-hierarchy check (`src/check/heading-hierarchy.ts`, first
module) -/

/-- The `for (let j = 1; j < n; j++)` scan: does any heading level strictly
below `n` have content? -/
def hasContentBelow (hs : Headings) (n : ℕ) : Bool :=
  (List.range' 1 (n - 1)).any (fun j => !(hLevel hs j).isEmpty)

/-- The errors the heading-hierarchy check pushes while visiting level `n`:
nothing if the level is unused; else "used without any parent heading
levels" when no shallower level has content (levels above 1), and
"skips h(n-1) level" when the immediate parent level is empty but some
earlier level is non-empty (levels above 2). -/
def hierarchyLevelErrors (hs : Headings) (n : ℕ) : List String :=
  if (hLevel hs n).isEmpty then []
  else
    (if decide (n > 1) && !(hasContentBelow hs n) then
      ["SEO: Heading hierarchy - h" ++ toString n ++ " used without any parent heading levels"]
    else [])
    ++ (if decide (n > 2) && (hLevel hs (n - 1)).isEmpty && hasContentBelow hs (n - 1) then
      ["SEO: Heading hierarchy - h" ++ toString n ++ " skips h" ++ toString (n - 1) ++ " level"]
    else [])

/-- All errors the heading-hierarchy check appends, levels 1 through 6 in
order. -/
def headingHierarchyErrors (hs : Headings) : List String :=
  ((List.range' 1 6).map (hierarchyLevelErrors hs)).flatten

/-- The heading-hierarchy check module: early-return unless `options.seo`,
else append the per-level errors to the page. -/
def headingHierarchyCheck (options : CheckOptions) (_doc : DocM) (page : PageR) : PageR :=
  if !options.seo then page
  else { page with errors := page.errors ++ headingHierarchyErrors page.headings }

/-! ### Performance check (`src/check/seo.ts`, second module) -/

/-- The performance check: `if (!page.loadingTime) return` (so an absent
— or zero, hence falsy — loading time leaves the page untouched); else an
error above 4000 ms or a warning above 2500 ms, and a four-bucket
`performanceScore`. -/
def perfCheck (_options : CheckOptions) (_doc : DocM) (page : PageR) : PageR :=
  match page.loadingTime with
  | none => page
  | some t =>
    if t = 0 then page
    else
      let page1 :=
        if t > 4000 then
          { page with errors := page.errors
              ++ ["Performance: Page load time too slow (" ++ toString (jsRoundQ t) ++ "ms)"] }
        else if t > 2500 then
          { page with warnings := page.warnings
              ++ ["Performance: Page load time could be improved (" ++ toString (jsRoundQ t) ++ "ms)"] }
        else page
      let score : String :=
        if t < 1000 then "excellent"
        else if t < 2500 then "good"
        else if t < 4000 then "needs-improvement"
        else "poor"
      { page1 with performanceScore := some score }

/-! ### Sitemap crawler (`src/unnamed/part_000`, `generateSitemap`) -/

/-- Sitemap `PageType`: `{ path, depth, error? }` (`error` absent ↦ false). -/
structure SPage where
  path : String
  depth : ℕ
  error : Bool
deriving DecidableEq

/-- A frontier entry object `{path, depth}`.  `ref` models the JavaScript
object identity of the entry: each `pagesToCheck.push({...})` allocates a
fresh object, and `new Set` compares frontier entries by that identity. -/
structure SEntry where
  ref : ℕ
  path : String
  depth : ℕ
deriving DecidableEq

/-- A candidate `{path, depth}` as `checkPath` returns it, before the crawl
loop's append gives the fresh object its identity. -/
structure SCand where
  path : String
  depth : ℕ
deriving DecidableEq

/-- One sitemap-variant fetch outcome: `ok`, `status`, and the href captures
of `text.matchAll(/<a[^>]+href="([^"]+)"/g)` (the body-text scan is the
parsing collaborator here). -/
structure SResp where
  ok : Bool
  status : ℕ
  hrefs : List String
deriving DecidableEq

/-- Result of one sitemap `checkPath` call. -/
structure SPRes where
  cands : List SCand
  store : List (String × SPage)
  fetched : Bool
deriving DecidableEq

/-- `pages[page.path] || page.path.startsWith('http')` — the sitemap
variant's skip rule: no `sitemap.xml` / `robots.txt` exclusion. -/
def skipGuardS (pages : List (String × SPage)) (path : String) : Bool :=
  (List.lookup path pages).isSome || jsStartsWith path "http"

/-- `checkPath` of the sitemap crawler (`src/unnamed/part_000` lines
15–55). -/
def checkPathS (urls : UrlFns) (baseUrl p : String) (d : ℕ)
    (pages : List (String × SPage)) (resp : SResp) : SPRes :=
  if skipGuardS pages p then ⟨[], pages, false⟩
  else
    let url := urls.resolve baseUrl p
    if !resp.ok then ⟨[], pages ++ [(p, ⟨url.toStr, d, true⟩)], true⟩
    else
      let pages2 := pages ++ [(p, ⟨url.toStr, d, false⟩)]
      let cands := resp.hrefs.foldl
        (fun acc link =>
          let lu := urls.resolve baseUrl link
          if lu.origin == baseUrl && !(pages2.any (fun kv => kv.2.path == lu.toStr))
              && !(acc.any (fun c => c.path == lu.pathname))
          then acc ++ [⟨lu.pathname, d + 1⟩] else acc)
        []
      ⟨cands, pages2, true⟩

/-- State of the sitemap `checkAllPages` loop; `nextRef` is the allocation
counter behind the `ref` identities of frontier objects. -/
structure CStateS where
  frontier : List SEntry
  store : List (String × SPage)
  nextRef : ℕ

/-- One iteration of the sitemap `checkAllPages` while-loop (batch
serialized as in `crawlStepC`).  The returned candidates are fresh objects,
so the closing `pagesToCheck = Array.from(new Set(pagesToCheck))` dedups
them by object identity (`ref`), not by `{path, depth}` value. -/
def crawlStepS (urls : UrlFns) (fetchO : String → SResp) (baseUrl : String)
    (maxN : ℕ) (st : CStateS) : CStateS :=
  let k := max maxN 1
  let batch := st.frontier.take k
  let rest := st.frontier.drop k
  let step := batch.foldl
    (fun (acc : List (String × SPage) × List SCand) e =>
      let r := checkPathS urls baseUrl e.path e.depth acc.1 (fetchO e.path)
      (r.store, acc.2 ++ r.cands))
    (st.store, [])
  let tagged := step.2.enum.map (fun ic => SEntry.mk (st.nextRef + ic.1) ic.2.path ic.2.depth)
  ⟨jsSetDedup (rest ++ tagged), step.1, st.nextRef + step.2.length⟩

/-! ### Sitemap rendering (`src/unnamed/part_000` lines 71–130) -/

/-- `escapeXml`'s per-character replacement. -/
def escapeChar (c : Char) : String :=
  if c = '<' then "&lt;"
  else if c = '>' then "&gt;"
  else if c = '&' then "&amp;"
  else if c = Char.ofNat 39 then "&apos;"
  else if c = Char.ofNat 34 then "&quot;"
  else String.singleton c

/-- `escapeXml` from `src/unnamed/part_000`. -/
def escapeXml (s : String) : String := String.join (s.data.map escapeChar)

/-- `getPriority(depth) = round(0.8 ** (depth - 1), 2).toFixed(2)` (the
decay base 0.8 taken as the exact rational it denotes). -/
def getPriority (depth : ℕ) : String := toFixed2 (roundTo ((0.8 : ℚ) ^ (depth - 1)) 2)

/-- One rendered `<url>` entry: its `<loc>`, `<priority>` and `<changefreq>`
texts (`<lastmod>` is the render-time clock, outside the model). -/
structure SitemapEntry where
  loc : String
  priority : String
  changefreq : String
deriving DecidableEq

/-- The `<url>` entries of the generated sitemap:
`Object.values(pages).filter(page => !page.error).map(...)`. -/
def renderUrlEntries (pages : List SPage) : List SitemapEntry :=
  (pages.filter (fun p => !p.error)).map
    (fun p => ⟨escapeXml p.path, getPriority p.depth, "daily"⟩)

/-! ### Concrete fixtures for closed evaluations -/

/-- The checker CLI's default options (seo, accessibility, socialMedia on). -/
def defaultOpts : CheckOptions := ⟨true, true, false, true⟩

/-- A battery that runs no check. -/
def passBattery : Battery := fun _ _ page => page

/-- A battery that visibly marks every page it is run on. -/
def taintBattery : Battery := fun _ _ page => { page with errors := page.errors ++ ["battery ran"] }

/-- An empty parsed document. -/
def emptyDoc : DocM := ⟨"", Elem.mk "html" [] "" []⟩

/-- `<button></button>`: no `aria-label`, no text, no children, not hidden. -/
def bareButton : Elem := Elem.mk "button" [] "" []

/-- A document body containing only the bare button. -/
def bareButtonRoot : Elem := Elem.mk "body" [] "" [bareButton]

/-- A 404 response whose body is JSON, not HTML. -/
def respJson404 : Response := ⟨false, 404, some "application/json", emptyDoc, 5⟩

/-- A 404 response served as HTML. -/
def respHtml404 : Response := ⟨false, 404, some "text/html; charset=utf-8", emptyDoc, 5⟩

/-- A successful HTML response with an empty document. -/
def respHtml200 : Response := ⟨true, 200, some "text/html", emptyDoc, 5⟩

/-- A successful response whose body is JSON, not HTML. -/
def respJson200 : Response := ⟨true, 200, some "application/json", emptyDoc, 5⟩

/-- A page whose measured loading time is exactly 0 ms. -/
def pageZero : PageR := ⟨"https://s.com/", "t", emptyHeadings, [], [], some 0, none⟩

/-- A page whose measured loading time is 3000 ms. -/
def page3000 : PageR := ⟨"https://s.com/", "t", emptyHeadings, [], [], some 3000, none⟩

/-- Headings with content at h1 and h3 only. -/
def headingsH1H3 : Headings := ⟨["Home"], [], ["Section"], [], [], []⟩

/-- A page carrying `headingsH1H3` and one pre-existing error. -/
def pageH1H3 : PageR := ⟨"https://s.com/", "t", headingsH1H3, ["prior"], [], some 5, none⟩

/-- A sitemap fetch oracle: every page is OK and links to `/a`. -/
def sFetchLinkA : String → SResp := fun _ => ⟨true, 200, ["/a"]⟩

/-- A sitemap crawl state: two pending pages `/p` and `/q`, empty store. -/
def sStateTwo : CStateS := ⟨[⟨0, "/p", 1⟩, ⟨1, "/q", 1⟩], [], 2⟩

/-- A single non-error root page record for the renderer. -/
def sPagesOne : List SPage := [⟨"https://s.com/", 1, false⟩]

/-- The entry the renderer produces from `sPagesOne`. -/
def sEntryOne : SitemapEntry := ⟨escapeXml "https://s.com/", getPriority 1, "daily"⟩

/-! ## Library lemmas about the JS `Set` dedup model -/

theorem mem_jsSetDedupAux {α : Type} [DecidableEq α] (a : α) :
    ∀ (l seen : List α), a ∈ jsSetDedupAux seen l ↔ a ∈ l ∧ a ∉ seen := by
  intro l
  induction l with
  | nil => intro seen; simp [jsSetDedupAux]
  | cons x xs ih =>
    intro seen
    simp only [jsSetDedupAux]
    by_cases hx : x ∈ seen
    · simp only [if_pos hx, ih, List.mem_cons]
      constructor
      · rintro ⟨h1, h2⟩
        exact ⟨Or.inr h1, h2⟩
      · rintro ⟨h1 | h1, h2⟩
        · exact absurd (by rwa [h1]) h2
        · exact ⟨h1, h2⟩
    · simp only [if_neg hx, List.mem_cons, ih]
      constructor
      · rintro (rfl | ⟨h1, h2⟩)
        · exact ⟨Or.inl rfl, hx⟩
        · exact ⟨Or.inr h1, fun hc => h2 (Or.inr hc)⟩
      · rintro ⟨h1 | h1, h2⟩
        · exact Or.inl h1
        · by_cases hax : a = x
          · exact Or.inl hax
          · exact Or.inr ⟨h1, fun hc => hc.elim hax h2⟩

theorem nodup_jsSetDedupAux {α : Type} [DecidableEq α] :
    ∀ (l seen : List α), (jsSetDedupAux seen l).Nodup := by
  intro l
  induction l with
  | nil => intro seen; simp [jsSetDedupAux]
  | cons x xs ih =>
    intro seen
    simp only [jsSetDedupAux]
    by_cases hx : x ∈ seen
    · rw [if_pos hx]; exact ih seen
    · rw [if_neg hx]
      refine List.nodup_cons.mpr ⟨?_, ih (x :: seen)⟩
      rw [mem_jsSetDedupAux]
      rintro ⟨-, h2⟩
      exact h2 (List.mem_cons_self x seen)

theorem length_jsSetDedupAux_le {α : Type} [DecidableEq α] :
    ∀ (l seen : List α), (jsSetDedupAux seen l).length ≤ l.length := by
  intro l
  induction l with
  | nil => intro seen; simp [jsSetDedupAux]
  | cons x xs ih =>
    intro seen
    simp only [jsSetDedupAux]
    by_cases hx : x ∈ seen
    · rw [if_pos hx]
      exact (ih seen).trans (Nat.le_succ _)
    · rw [if_neg hx]
      simpa using Nat.succ_le_succ (ih (x :: seen))

theorem mem_jsSetDedup {α : Type} [DecidableEq α] (a : α) (l : List α) :
    a ∈ jsSetDedup l ↔ a ∈ l := by
  simp [jsSetDedup, mem_jsSetDedupAux]

theorem nodup_jsSetDedup {α : Type} [DecidableEq α] (l : List α) : (jsSetDedup l).Nodup :=
  nodup_jsSetDedupAux l []

theorem length_jsSetDedup_le {α : Type} [DecidableEq α] (l : List α) :
    (jsSetDedup l).length ≤ l.length :=
  length_jsSetDedupAux_le l []

/-! ## Library lemmas about the report aggregation folds -/

theorem foldl_concat_eq {α β : Type} (f : α → List β) :
    ∀ (l : List α) (init : List β),
      l.foldl (fun t x => t ++ f x) init = init ++ (l.map f).flatten := by
  intro l
  induction l with
  | nil => intro init; simp
  | cons x xs ih => intro init; simp [ih]

theorem foldl_count_eq {α β : Type} (f : α → List β) :
    ∀ (l : List α) (init : ℕ),
      l.foldl (fun t x => t + (f x).length) init = init + ((l.map f).flatten).length := by
  intro l
  induction l with
  | nil => intro init; simp
  | cons x xs ih => intro init; simp [ih]; omega

/-! ## Claim theorems -/

/-- C6: the report's global error list is the string-equality-deduplicated
union of all pages' error lists (no duplicates, and exactly the strings
occurring in some page's errors), the reported total error count is the sum
of the lengths of all pages' error lists without deduplication, and hence
the total count is at least the global list's length — and likewise for
warnings. -/
theorem claim6_report_aggregation :
    ∀ store : List (String × PageR),
      (uniqueErrors store).Nodup
      ∧ (∀ s, s ∈ uniqueErrors store ↔ ∃ kv ∈ store, s ∈ kv.2.errors)
      ∧ totalErrors store = (concatErrors store).length
      ∧ (uniqueErrors store).length ≤ totalErrors store
      ∧ (uniqueWarnings store).Nodup
      ∧ (∀ s, s ∈ uniqueWarnings store ↔ ∃ kv ∈ store, s ∈ kv.2.warnings)
      ∧ totalWarnings store = (concatWarnings store).length
      ∧ (uniqueWarnings store).length ≤ totalWarnings store := by
  intro store
  have hce : concatErrors store = (store.map (fun kv => kv.2.errors)).flatten := by
    simpa [concatErrors] using foldl_concat_eq (fun kv : String × PageR => kv.2.errors) store []
  have hcw : concatWarnings store = (store.map (fun kv => kv.2.warnings)).flatten := by
    simpa [concatWarnings] using foldl_concat_eq (fun kv : String × PageR => kv.2.warnings) store []
  have hte : totalErrors store = (concatErrors store).length := by
    rw [hce]
    simpa [totalErrors] using foldl_count_eq (fun kv : String × PageR => kv.2.errors) store 0
  have htw : totalWarnings store = (concatWarnings store).length := by
    rw [hcw]
    simpa [totalWarnings] using foldl_count_eq (fun kv : String × PageR => kv.2.warnings) store 0
  refine ⟨nodup_jsSetDedup _, ?_, hte, ?_, nodup_jsSetDedup _, ?_, htw, ?_⟩
  · intro s
    rw [uniqueErrors, mem_jsSetDedup, hce, List.mem_flatten]
    constructor
    · rintro ⟨l, hl, hs⟩
      obtain ⟨kv, hkv, rfl⟩ := List.mem_map.mp hl
      exact ⟨kv, hkv, hs⟩
    · rintro ⟨kv, hkv, hs⟩
      exact ⟨kv.2.errors, List.mem_map.mpr ⟨kv, hkv, rfl⟩, hs⟩
  · rw [hte]
    exact length_jsSetDedup_le _
  · intro s
    rw [uniqueWarnings, mem_jsSetDedup, hcw, List.mem_flatten]
    constructor
    · rintro ⟨l, hl, hs⟩
      obtain ⟨kv, hkv, rfl⟩ := List.mem_map.mp hl
      exact ⟨kv, hkv, hs⟩
    · rintro ⟨kv, hkv, hs⟩
      exact ⟨kv.2.warnings, List.mem_map.mpr ⟨kv, hkv, rfl⟩, hs⟩
  · rw [htw]
    exact length_jsSetDedup_le _

/-- C10: `notAriaHidden` reports an element hidden exactly when some link of
its self-plus-ancestors chain carries `aria-hidden="true"` or
`aria-hidden=""`; in particular `aria-hidden=""` alone hides an element, and
`aria-hidden="false"` on the element does not exempt it when an ancestor has
`aria-hidden="true"` (the walk continues past `"false"`). -/
theorem claim10_aria_hidden_walk :
    (∀ chain : List Attrs, notAriaHidden chain = false ↔
      ∃ attrs ∈ chain, lookupAttr attrs "aria-hidden" = some "true"
        ∨ lookupAttr attrs "aria-hidden" = some "")
    ∧ notAriaHidden [[("aria-hidden", "")]] = false
    ∧ notAriaHidden [[("aria-hidden", "false")], [("aria-hidden", "true")]] = false := by
  refine ⟨?_, by decide, by decide⟩
  intro chain
  induction chain with
  | nil => simp [notAriaHidden]
  | cons attrs parents ih =>
    by_cases h : ariaHiddenHit attrs
    · have hhit : lookupAttr attrs "aria-hidden" = some "true"
          ∨ lookupAttr attrs "aria-hidden" = some "" := by
        simpa [ariaHiddenHit] using h
      simp only [notAriaHidden, if_pos h]
      constructor
      · intro _
        exact ⟨attrs, List.mem_cons_self _ _, hhit⟩
      · intro _
        trivial
    · have hno : ¬(lookupAttr attrs "aria-hidden" = some "true"
          ∨ lookupAttr attrs "aria-hidden" = some "") := by
        simpa [ariaHiddenHit] using h
      simp only [notAriaHidden, if_neg h, ih]
      constructor
      · rintro ⟨a, ha, hp⟩
        exact ⟨a, List.mem_cons_of_mem _ ha, hp⟩
      · rintro ⟨a, ha, hp⟩
        rcases List.mem_cons.mp ha with rfl | ha2
        · exact absurd hp hno
        · exact ⟨a, ha2, hp⟩

/-- The accessible-naming filter's third stage is constant false: every
return path of `hasAccessibilityContent(e, value)` yields `value` or
`false`, so the call with `value = false` can only return `false`. -/
theorem hasAccessibilityContent_false (e : Elem) : hasAccessibilityContent e false = false := by
  cases e with
  | mk tg a tx cs =>
    rw [hasAccessibilityContent]
    split
    · rfl
    · split <;> rfl

/-- C8 (code bug): because `hasAccessibilityContent(e, false)` is constant
false, the `notLabelledLink` filter keeps no element and the accessible-
naming check appends no "Not labelled link/button" error on any document —
in particular not on a document containing a bare `<button></button>`, even
though that button matches the selector and is not aria-hidden. -/
theorem claim8_not_labelled_never_fires :
    (∀ root : Elem, notLabelledErrors root = [])
    ∧ selNotLabelled bareButton = true
    ∧ notAriaHidden [bareButton.attrs] = true
    ∧ hasAccessibilityContent bareButton true = false
    ∧ notLabelledErrors bareButtonRoot = [] := by
  have hall : ∀ root : Elem, notLabelledErrors root = [] := by
    intro root
    simp [notLabelledErrors, hasAccessibilityContent_false]
  exact ⟨hall, by decide, by decide, by decide, hall bareButtonRoot⟩

/-- C7: on any page whose extracted headings have content at h1 and h3 only
(h2 empty, h4–h6 empty), the heading-hierarchy check appends exactly one
skipped-level error, for h3 — because its per-level scan asks whether any
shallower level has content, the h1 content both satisfies the "has a
parent" test and arms the "skips h2" test. -/
theorem claim7_skipped_level :
    ∀ (opts : CheckOptions) (doc : DocM) (page : PageR),
      opts.seo = true →
      page.headings.h1.isEmpty = false →
      page.headings.h2.isEmpty = true →
      page.headings.h3.isEmpty = false →
      page.headings.h4.isEmpty = true →
      page.headings.h5.isEmpty = true →
      page.headings.h6.isEmpty = true →
      (headingHierarchyCheck opts doc page).errors
        = page.errors ++ ["SEO: Heading hierarchy - h3 skips h2 level"] := by
  intro opts doc page hseo e1 e2 e3 e4 e5 e6
  have hrange : List.range' 1 6 = [1, 2, 3, 4, 5, 6] := rfl
  have hr2 : List.range' 1 (3 - 1) = [1, 2] := rfl
  have hr1 : List.range' 1 (2 - 1) = [1] := rfl
  simp [headingHierarchyCheck, hseo, headingHierarchyErrors, hrange, hierarchyLevelErrors,
    hasContentBelow, hr2, hr1, hLevel, e1, e2, e3, e4, e5, e6]
  rfl

/-- C7 witness: the check at a concrete page with h1 `["Home"]`,
h3 `["Section"]` and one pre-existing error. -/
theorem claim7_witness :
    (headingHierarchyCheck defaultOpts emptyDoc pageH1H3).errors
      = pageH1H3.errors ++ ["SEO: Heading hierarchy - h3 skips h2 level"] :=
  claim7_skipped_level defaultOpts emptyDoc pageH1H3 rfl rfl rfl rfl rfl rfl rfl

/-- C9 (amended): for every page whose loadingTime is present and nonzero,
the performance check appends exactly one error iff the time exceeds 4000 ms,
exactly one warning iff it exceeds 2500 ms but not 4000 ms, and assigns the
four-bucket qualitative score; a page with absent or zero loadingTime is
left untouched by the check (see the counterexample). -/
theorem claim9_performance_classification :
    ∀ (opts : CheckOptions) (doc : DocM) (page : PageR) (t : ℚ),
      page.loadingTime = some t → t ≠ 0 →
      (perfCheck opts doc page).errors.length
          = page.errors.length + (if 4000 < t then 1 else 0)
      ∧ (perfCheck opts doc page).warnings.length
          = page.warnings.length + (if 2500 < t ∧ ¬ 4000 < t then 1 else 0)
      ∧ (perfCheck opts doc page).performanceScore
          = some (if t < 1000 then "excellent"
              else if t < 2500 then "good"
              else if t < 4000 then "needs-improvement"
              else "poor") := by
  intro opts doc page t hlt ht
  simp only [perfCheck, hlt]
  rw [if_neg ht]
  by_cases h1 : (4000 : ℚ) < t
  · have hw : ¬((2500 : ℚ) < t ∧ ¬ (4000 : ℚ) < t) := fun hc => hc.2 h1
    simp [h1, hw]
  · by_cases h2 : (2500 : ℚ) < t
    · have hw : (2500 : ℚ) < t ∧ ¬ (4000 : ℚ) < t := ⟨h2, h1⟩
      simp [h1, h2, hw]
    · have hw : ¬((2500 : ℚ) < t ∧ ¬ (4000 : ℚ) < t) := fun hc => h2 hc.1
      simp [h1, h2, hw]

/-- C9 witness: a page fetched in 3000 ms gains no error, one warning, and
the "needs-improvement" score. -/
theorem claim9_witness :
    (perfCheck defaultOpts emptyDoc page3000).errors.length
        = page3000.errors.length + (if (4000 : ℚ) < 3000 then 1 else 0)
    ∧ (perfCheck defaultOpts emptyDoc page3000).warnings.length
        = page3000.warnings.length + (if (2500 : ℚ) < 3000 ∧ ¬ (4000 : ℚ) < 3000 then 1 else 0)
    ∧ (perfCheck defaultOpts emptyDoc page3000).performanceScore
        = some (if (3000 : ℚ) < 1000 then "excellent"
            else if (3000 : ℚ) < 2500 then "good"
            else if (3000 : ℚ) < 4000 then "needs-improvement"
            else "poor") :=
  claim9_performance_classification defaultOpts emptyDoc page3000 3000 rfl (by norm_num)

/-- C9 counterexample: a page whose measured loadingTime is exactly 0 ms (a
falsy number, like an absent one) makes the check return early: nothing is
recorded and no performanceScore is assigned, although the claim prescribes
the score "excellent" for any loadingTime below 1000 ms. -/
theorem claim9_cex :
    pageZero.loadingTime = some 0
    ∧ perfCheck defaultOpts emptyDoc pageZero = pageZero
    ∧ (perfCheck defaultOpts emptyDoc pageZero).performanceScore = none := by
  have h2 : perfCheck defaultOpts emptyDoc pageZero = pageZero := by
    simp [perfCheck, pageZero]
  exact ⟨rfl, h2, by rw [h2]; rfl⟩

/-- C2 (amended): for every dispatched path (skip guard false) whose fetch
resolves with a non-success status *and whose content-type includes
text/html*, the checker's `checkPath` writes a PageRecord with the single
error "HTTP error: <status>", empty title and empty heading lists, runs no
check (the result is the same for every battery, which is universally
quantified here), and returns no links; a non-success response without a
text/html content-type writes no record at all (see the counterexample). -/
theorem claim2_http_error_record :
    ∀ (urls : UrlFns) (battery : Battery) (opts : CheckOptions) (baseUrl path : String)
      (pages : List (String × PageR)) (resp : Response),
      skipGuardC pages path = false →
      jsIncludesOpt resp.contentType "text/html" = true →
      resp.ok = false →
      checkV urls battery opts baseUrl path pages resp
        = ⟨[], pages ++ [(path,
            ⟨(urls.resolve baseUrl path).toStr, "", emptyHeadings,
              ["HTTP error: " ++ toString resp.status], [], some resp.loadingTime, none⟩)],
          true⟩ := by
  intro urls battery opts baseUrl path pages resp hg hct hok
  simp [checkV, hg, hct, hok]

/-- C2 witness: a 404 served as text/html at path `/x`, checked with a
battery that would visibly taint any page it ran on, writes exactly the
"HTTP error: 404" record and returns no links. -/
theorem claim2_witness :
    checkV simpleUrls taintBattery defaultOpts "https://s.com" "/x" [] respHtml404
      = ⟨[], [("/x",
          ⟨(simpleUrls.resolve "https://s.com" "/x").toStr, "", emptyHeadings,
            ["HTTP error: " ++ toString respHtml404.status], [], some respHtml404.loadingTime,
            none⟩)],
        true⟩ :=
  claim2_http_error_record simpleUrls taintBattery defaultOpts "https://s.com" "/x" []
    respHtml404 (by decide) (by decide) rfl

/-- C2 counterexample: a dispatched path whose fetch resolves with status
404 but content-type `application/json` writes no PageRecord at all — the
checker's content-type test precedes its status test — refuting the claim
as stated for the checker variant. -/
theorem claim2_cex :
    respJson404.ok = false
    ∧ skipGuardC [] "/x" = false
    ∧ (checkV simpleUrls taintBattery defaultOpts "https://s.com" "/x" [] respJson404).store = []
    ∧ (checkV simpleUrls taintBattery defaultOpts "https://s.com" "/x" [] respJson404).fetched
        = true := by
  exact ⟨rfl, by decide, rfl, rfl⟩

/-- C3: whenever the response's content-type header does not include
text/html (including an absent header), the checker's `checkPath` returns an
empty link list and leaves the store unchanged — no record, no error —
whatever the response's status and body. -/
theorem claim3_non_html_skipped :
    ∀ (urls : UrlFns) (battery : Battery) (opts : CheckOptions) (baseUrl path : String)
      (pages : List (String × PageR)) (resp : Response),
      jsIncludesOpt resp.contentType "text/html" = false →
      (checkV urls battery opts baseUrl path pages resp).links = []
      ∧ (checkV urls battery opts baseUrl path pages resp).store = pages := by
  intro urls battery opts baseUrl path pages resp hct
  by_cases hg : skipGuardC pages path <;> simp [checkV, hg, hct]

/-- C3 witness: a successful (HTTP 200) JSON response is silently skipped. -/
theorem claim3_witness :
    (checkV simpleUrls taintBattery defaultOpts "https://s.com" "/data" [] respJson200).links = []
    ∧ (checkV simpleUrls taintBattery defaultOpts "https://s.com" "/data" [] respJson200).store
        = [] :=
  claim3_non_html_skipped simpleUrls taintBattery defaultOpts "https://s.com" "/data" []
    respJson200 (by decide)

/-- C4: a candidate already stored, or starting with "http", or — in the
checker variant — ending with "sitemap.xml" or "robots.txt", is returned
empty with no fetch and no store write; the sitemap variant's guard has no
sitemap.xml/robots.txt exclusion, so such paths do reach its fetch. -/
theorem claim4_skip_rule :
    (∀ (urls : UrlFns) (battery : Battery) (opts : CheckOptions) (baseUrl path : String)
        (pages : List (String × PageR)) (resp : Response),
        skipGuardC pages path = true →
        checkV urls battery opts baseUrl path pages resp = ⟨[], pages, false⟩)
    ∧ (∀ (urls : UrlFns) (baseUrl p : String) (d : ℕ)
        (pages : List (String × SPage)) (resp : SResp),
        skipGuardS pages p = true →
        checkPathS urls baseUrl p d pages resp = ⟨[], pages, false⟩)
    ∧ (checkPathS simpleUrls "https://s.com" "/sitemap.xml" 1 [] ⟨false, 404, []⟩).fetched = true
    ∧ (checkPathS simpleUrls "https://s.com" "/robots.txt" 1 [] ⟨false, 404, []⟩).fetched
        = true := by
  refine ⟨?_, ?_, rfl, rfl⟩
  · intro urls battery opts baseUrl path pages resp hg
    simp [checkV, hg]
  · intro urls baseUrl p d pages resp hg
    simp [checkPathS, hg]

/-- C4 witness: the checker skips `/about/sitemap.xml` without fetching even
on an empty store; the sitemap variant skips an absolute `http://` link. -/
theorem claim4_witness :
    checkV simpleUrls taintBattery defaultOpts "https://s.com" "/about/sitemap.xml" [] respHtml200
      = ⟨[], [], false⟩
    ∧ checkPathS simpleUrls "https://s.com" "http://ext/page" 1 [] ⟨true, 200, []⟩
      = ⟨[], [], false⟩ :=
  ⟨claim4_skip_rule.1 simpleUrls taintBattery defaultOpts "https://s.com" "/about/sitemap.xml"
      [] respHtml200 (by decide),
    claim4_skip_rule.2.1 simpleUrls "https://s.com" "http://ext/page" 1 [] ⟨true, 200, []⟩
      (by decide)⟩

/-- C1 (code bug): after each batch the checker's frontier — a list of
primitive path strings — is value-deduplicated, so no path appears twice
before the next iteration; but the sitemap variant's frontier holds
`{path, depth}` objects, which `new Set` compares by reference, so two
distinct objects with equal path and depth both survive: one step from two
pages `/p` and `/q` that each link to `/a` leaves the frontier holding two
entries with path "/a" and depth 2. -/
theorem claim1_frontier_dedup :
    (∀ (urls : UrlFns) (battery : Battery) (opts : CheckOptions) (fetchO : String → Response)
        (baseUrl : String) (maxN : ℕ) (st : CStateC),
        (crawlStepC urls battery opts fetchO baseUrl maxN st).frontier.Nodup)
    ∧ (crawlStepS simpleUrls sFetchLinkA "https://s.com" 2 sStateTwo).frontier
        = [⟨2, "/a", 2⟩, ⟨3, "/a", 2⟩]
    ∧ (⟨2, "/a", 2⟩ : SEntry).path = (⟨3, "/a", 2⟩ : SEntry).path
    ∧ (⟨2, "/a", 2⟩ : SEntry).depth = (⟨3, "/a", 2⟩ : SEntry).depth := by
  refine ⟨?_, by decide, rfl, rfl⟩
  intro urls battery opts fetchO baseUrl maxN st
  simp only [crawlStepC]
  exact nodup_jsSetDedup _

/-- C5: every page that survives the sitemap renderer's error filter is
rendered with `changefreq` fixed to "daily" and `priority` equal to
`round(0.8^(depth-1), 2)` (then `toFixed(2)`), which at depths 1, 2, 3
yields "1.00", "0.80", "0.64". -/
theorem claim5_priority_decay :
    (∀ (pages : List SPage), ∀ e ∈ renderUrlEntries pages,
      e.changefreq = "daily" ∧ ∃ p ∈ pages, p.error = false ∧ e.priority = getPriority p.depth)
    ∧ getPriority 1 = "1.00"
    ∧ getPriority 2 = "0.80"
    ∧ getPriority 3 = "0.64" := by
  refine ⟨?_, ?_, ?_, ?_⟩
  · intro pages e he
    simp only [renderUrlEntries, List.mem_map, List.mem_filter] at he
    obtain ⟨p, ⟨hp, herr⟩, rfl⟩ := he
    exact ⟨rfl, p, hp, by simpa using herr, rfl⟩
  · unfold getPriority roundTo jsRoundQ toFixed2
    norm_num
    decide
  · unfold getPriority roundTo jsRoundQ toFixed2
    norm_num
    decide
  · unfold getPriority roundTo jsRoundQ toFixed2
    norm_num
    decide

/-- C5 witness: the renderer applied to a store with one non-error root
page (depth 1). -/
theorem claim5_witness :
    sEntryOne.changefreq = "daily"
    ∧ ∃ p ∈ sPagesOne, p.error = false ∧ sEntryOne.priority = getPriority p.depth :=
  claim5_priority_decay.1 sPagesOne sEntryOne (by
    show sEntryOne ∈ renderUrlEntries sPagesOne
    rw [show renderUrlEntries sPagesOne = [sEntryOne] from rfl]
    exact List.mem_singleton.mpr rfl)
